import Mathlib

/-!
A verification development for the "Using Phi-3 as relevance judge" notebook.

The notebook defines a `Phi3Evaluator` class that wraps a Huggingface
text-generation pipeline, parses each generated output against a regex
built from a closed set of `response_types`, performs majority voting over
the parsed outputs of each batch element, and reports the plurality label
together with an agreement score.  It also defines prompt templates, a
`POOL` of task definitions, and generator functions `generate_prompts` and
`generate_data` over lists of input records.

Strings are modelled as lists of characters (`Str`), Python floats as exact
rationals (`ℚ`), and the text-generation pipeline as an oracle that returns,
per prompt, either a single generation (the `dict` case in the notebook) or
a list of generations (the `list` case).
-/

/-- Strings of the Python program, modelled as lists of characters. -/
abbrev Str := List Char

/-- Conversion from Lean string literals to strings of the model. -/
def str (s : String) : Str := s.data

/-- The sentinel label `"Unparsable"` used by `Phi3Evaluator`. -/
def unparsable : Str := str "Unparsable"

/-- Case-insensitive equality of strings, modelling how `re.IGNORECASE`
compares the pattern with the subject text (both sides case-folded;
the labels in the notebook are ASCII). -/
def lcEq (a b : Str) : Bool := a.map Char.toLower == b.map Char.toLower

/-- Try the regex alternatives in order at the current position of the
subject string.  A literal alternative `t` matches when it is a
case-insensitive prefix of `s`; the matched text (`group()` in Python) is
the corresponding prefix of the subject string itself, with its original
case.  Alternatives are tried left to right, matching the preference
order of a Python regex inside `(a|b|...)`.  The `response_types` used by the notebook contain no regex
metacharacters, so each alternative matches literally. -/
def matchAt : List Str → Str → Option Str
  | [], _ => none
  | t :: ts, s =>
    if t.length ≤ s.length && lcEq (s.take t.length) t then some (s.take t.length)
    else matchAt ts s

/-- `re.search` of the alternation regex `"(" + "|".join(response_types) + ")"`
with `re.IGNORECASE`: scan positions left to right and return the first
match found (leftmost position, then earliest alternative). -/
def reSearch (alts : List Str) : Str → Option Str
  | [] => matchAt alts []
  | c :: rest =>
    match matchAt alts (c :: rest) with
    | some m => some m
    | none => reSearch alts rest

/-- `self.regex_str` from `Phi3Evaluator.__init__`:
`r"(" + r"|".join(response_types) + r")" if response_types else None`.
The alternation regex is represented by its list of alternatives; it is
`None` exactly when `response_types` is the empty list. -/
def regexStr (response_types : List Str) : Option (List Str) :=
  if response_types.isEmpty then none else some response_types

/-- `Phi3Evaluator._postprocess_output`: if `regex_str` is falsy return the
LLM output unchanged; otherwise return the matched text of
`re.search(regex_str, llm_out, re.IGNORECASE)`, or `"Unparsable"` when
there is no match. -/
def postprocessOutput (response_types : List Str) (llm_out : Str) : Str :=
  match regexStr response_types with
  | none => llm_out
  | some alts =>
    match reSearch alts llm_out with
    | some m => m
    | none => unparsable

/-- One element of the output stream of the text-generation pipeline: either a
single generation dict (`single`, carrying its `"generated_text"` field) or
a list of generation dicts (`multi`). -/
inductive PipeOut where
  | single : Str → PipeOut
  | multi : List Str → PipeOut
deriving DecidableEq

/-- `output = [output] if isinstance(output, dict) else output` followed by
`llm_outputs = [item["generated_text"] for item in output]`. -/
def llmOutputs : PipeOut → List Str
  | .single s => [s]
  | .multi l => l

/-- Among the candidate keys `ks`, the earliest one whose number of
occurrences in `l` is maximal.  `Counter(l)` iterates keys in first-insertion
order and `most_common(1)` (via `heapq.nlargest`) is stable, so the winner of
`Counter(l).most_common(1)` is the key with maximal count whose first
occurrence in `l` is earliest; running `bestKey l` over `l` itself returns
exactly that element (all occurrences of a label have the same count, so the
earliest position achieving the maximal count is the first occurrence of the
winning label). -/
def bestKey (l : List Str) : List Str → Option Str
  | [] => none
  | k :: ks =>
    match bestKey l ks with
    | none => some k
    | some b => if l.count b > l.count k then some b else some k

/-- `Counter(l).most_common(1)`: the winning label with its count, or `none`
for the empty list (in the notebook this branch is guarded by
`if clean_outputs:`). -/
def mostCommon1 (l : List Str) : Option (Str × Nat) :=
  (bestKey l l).map (fun k => (k, l.count k))

/-- Round-half-to-even to the nearest integer, the rounding mode of the Python
built-in `round` (modelled over exact rationals).  With `f = ⌊q⌋`, the
fractional part `q - f` is compared against `1/2` by comparing
`2 * (num - f * den)` against `den`. -/
def roundHalfEven (q : ℚ) : ℤ :=
  let f := Int.fdiv q.num q.den
  let r2 := 2 * (q.num - f * q.den)
  if r2 < (q.den : ℤ) then f
  else if r2 > (q.den : ℤ) then f + 1
  else if f % 2 = 0 then f else f + 1

/-- The Python call `round(q, 2)` over exact rationals: `roundHalfEven (q * 100) / 100`.
The scaling by `100` and the final division are written with `mkRat` on the
numerator and denominator of the rational (`mkRat a b = a / b`, see
`round2_eq_div`) so that the function evaluates by kernel reduction. -/
def round2 (q : ℚ) : ℚ := mkRat (roundHalfEven (mkRat (q.num * 100) q.den)) 100

/-- The value yielded by `Phi3Evaluator.__call__` for one batch element,
given its raw outputs and its list of parsed non-`"Unparsable"` outputs:
`(llm_outputs, winning label, agreement)` when some output parsed, and
`(llm_outputs, "Unparsable", -1.0)` otherwise.  The agreement
`winning_label[0][1] / len(clean_outputs)` is written
`mkRat wc.2 clean_outputs.length`, which equals that quotient
(`mkRat_eq_cast_div`). -/
def voteResult (llm_outputs : List Str) (clean_outputs : List Str) :
    List Str × Str × ℚ :=
  match mostCommon1 clean_outputs with
  | some wc => (llm_outputs, wc.1, round2 (mkRat wc.2 clean_outputs.length))
  | none => (llm_outputs, unparsable, -1)

/-- `clean_outputs` for one batch element: parse every raw output with
`_postprocess_output` and drop the results equal to `"Unparsable"`. -/
def cleanOutputs (response_types : List Str) (out : PipeOut) : List Str :=
  ((llmOutputs out).map (postprocessOutput response_types)).filter
    (fun o => o != unparsable)

/-- The body of the `for output in self.pipeline(...)` loop in
`Phi3Evaluator.__call__`, for a single pipeline output. -/
def processOne (response_types : List Str) (out : PipeOut) :
    List Str × Str × ℚ :=
  voteResult (llmOutputs out) (cleanOutputs response_types out)

/-- `Phi3Evaluator.__call__` as a whole, with the response of the pipeline given
as an oracle list holding one `PipeOut` per prompt: the generator yields one
triple per pipeline output, in order. -/
def callEval (response_types : List Str) (pipeOutputs : List PipeOut) :
    List (List Str × Str × ℚ) :=
  pipeOutputs.map (processOne response_types)

/-- The decoding configuration returned by
`Phi3Evaluator._get_generation_args` (dict fields that are absent in the
greedy branch are `none`). -/
structure GenArgs where
  return_full_text : Bool
  temperature : Option ℚ
  do_sample : Bool
  num_return_sequences : ℤ
  num_beams : Option ℤ
deriving DecidableEq

/-- `Phi3Evaluator._get_generation_args`: sampled decoding when
`self._temperature > 0.0`, greedy decoding otherwise. -/
def getGenerationArgs (temperature : ℚ) (iterations : ℤ) : GenArgs :=
  if temperature > 0 then
    ⟨false, some temperature, true, iterations, some (2 * iterations)⟩
  else
    ⟨false, none, false, 1, none⟩

example : postprocessOutput [str "Relevant", str "Not Relevant"] (str "Not Relevant") = str "Not Relevant" := by decide
example : postprocessOutput [str "Relevant", str "Not Relevant"] (str "It is Relevant!") = str "Relevant" := by decide
example : postprocessOutput [str "Relevant", str "Not Relevant"] (str "relevant") = str "relevant" := by decide
example : postprocessOutput [str "Relevant", str "Not Relevant"] (str "nope") = unparsable := by decide
example : processOne [str "Relevant", str "Not Relevant"] (.multi [str "Relevant", str "Relevant", str "Not Relevant"]) = ([str "Relevant", str "Relevant", str "Not Relevant"], str "Relevant", mkRat 67 100) := by decide

/-- `mkRat a b` is the quotient `a / b`, so the `mkRat` occurrences in
`round2` and `voteResult` are the divisions written in the Python source. -/
theorem mkRat_eq_cast_div (a : ℤ) (b : ℕ) : mkRat a b = (a : ℚ) / (b : ℚ) := by
  rw [Rat.mkRat_eq_divInt, Rat.divInt_eq_div]; norm_num

/-- `round2 q` is `roundHalfEven (q * 100) / 100`. -/
theorem round2_eq_div (q : ℚ) :
    round2 q = (roundHalfEven (q * 100) : ℚ) / 100 := by
  rw [round2, mkRat_eq_cast_div]
  have hden : ((q.den : ℚ)) ≠ 0 := by exact_mod_cast q.den_nz
  have hnum : (q.num : ℚ) = q * (q.den : ℚ) :=
    (div_eq_iff hden).mp (Rat.num_div_den q)
  have h : mkRat (q.num * 100) q.den = q * 100 := by
    rw [mkRat_eq_cast_div]
    push_cast
    rw [hnum, div_eq_iff hden]
    ring
  rw [h]
  norm_num

/-- One piece of a prompt template: literal text, or a `{key}` replacement
field consumed by `str.format`. -/
inductive Piece where
  | lit : Str → Piece
  | hole : Str → Piece
deriving DecidableEq

/-- An input record (a Python dict with string keys and string values),
modelled as an association list. -/
abbrev Record := List (Str × Str)

/-- `key in line` for a record. -/
def hasKey (r : Record) (k : Str) : Bool := r.any (fun p => p.1 == k)

/-- `line[key]` for a record (first binding of the key; the default is never
reached when the key is present). -/
def lookupD (r : Record) (k : Str) : Str :=
  ((r.find? (fun p => p.1 == k)).map Prod.snd).getD []

/-- `prompt_template.format(**env)`: substitute each replacement field from
the environment and concatenate. -/
def formatTemplate (tpl : List Piece) (env : Record) : Str :=
  (tpl.map (fun p =>
    match p with
    | .lit s => s
    | .hole k => lookupD env k)).flatten

/-- `QA_POINTWISE_RELEVANCE_PROMPT_TEMPLATE`, split at its two replacement
fields `{query_text}` and `{retrieved_text}`. -/
def QA_POINTWISE_RELEVANCE_PROMPT_TEMPLATE : List Piece :=
  [.lit (str "You are an expert in information retrieval and your task is to estimate the relevance of a retrieved document to a query.\nMore specifically, you will be provided with two pieces of information:\n- Query, which is the question we want to answer\n- Retrieved Document, which is the document we want to evaluate.\n\nYour task is to predict \"Relevant\" if the Retrieved Document contains the information required to provide an answer to the Query, otherwise you should print \"Not Relevant\" \n#####\nHere are your inputs:\nQuery: "),
   .hole (str "query_text"),
   .lit (str "\nRetrieved Document: "),
   .hole (str "retrieved_text"),
   .lit (str "\n#####\n\nTake a step back and reflect carefully on how best to solve your task\nYou should provide your answer in the form of a boolean value: \"Relevant\" or \"Not Relevant\"\n")]

/-- `CHAIN_OF_THOUGHT_PROMPT_TEMPLATE`, split at its two replacement fields. -/
def CHAIN_OF_THOUGHT_PROMPT_TEMPLATE : List Piece :=
  [.lit (str "You are an expert in information retrieval and your task is to decide if a retrieved document is relevant to a query or not. You will be provided with two pieces of information:\n- QUERY, which is a web search\n- DOCUMENT, which is a web page snippet\nYour task is to predict \"Relevant\" if the DOCUMENT contains the information required to provide an answer to the QUERY, otherwise you should predict \"Not Relevant\".\nSolve this task step by step and use the following examples for help.\n\n####\nExample 1\nQUERY: define interconnected\nDOCUMENT: Matching (adjective) corresponding in pattern, colour, or design; complementary.\nIntent: The query is looking for the dictionary definition of the term \"interconnected\".\nKey Information: The document provides a definition of the term \"matching\".\nExplanation: The term \"matching\" is closely related to the word \"interconnected\". However, the query is asking for the dictionary definition of \"interconnected\", not \"matching\".\nAnswer: \"Not Relevant\"\n\nExample 2\nQUERY: what are some good chocolate cake recipes\nDOCUMENT: Here are some of the best chocolate cakes to make yourself.\nIntent: The query is looking for chocolate cake recipes.\nKey Information: The document provides a list of chocolate cakes you can make yourself.\nExplanation: The document provides information about chocolate cakes you can make yourself. This makes it very likely that it provides their recipes as well.\nAnswer: \"Relevant\"\n\nExample 3\nQUERY: enable parental controls on Netflix\nDOCUMENT: Here\x27s how to turn on parental controls on Amazon Prime Video:\nIntent: The query is looking for instructions on how to enable parental controls on Netflix.\nKey Information: The document provides instructions on how to turn on parental controls on Amazon Prime Video.\nExplanation: The document provides instructions for how to turn on parental controls for Amazon Prime Video, not Netflix.\nAnswer: \"Not Relevant\"\n\n####\n\nTo solve your task, first check if any of the examples are useful, then think carefully if Key Information matches the Intent. Use the following format:\nIntent: [the intent behind QUERY]\nKey Information: [the key information contained in DOCUMENT]\nExplanation: [your explanation]\nAnswer: [your answer]\n[your answer] should be either \"Relevant\" or \"Not Relevant\".\nHere are the QUERY and DOCUMENT for you to evaluate:\nQUERY: "),
   .hole (str "query_text"),
   .lit (str "\nDOCUMENT: "),
   .hole (str "retrieved_text"),
   .lit (str "\n")]

/-- `QA_PAIRWISE_RELEVANCE_PROMPT_TEMPLATE`, split at its three replacement
fields `{query_text}`, `{positive_text}` and `{retrieved_text}`. -/
def QA_PAIRWISE_RELEVANCE_PROMPT_TEMPLATE : List Piece :=
  [.lit (str "You are an expert in information retrieval and your task is to estimate the relevance of a retrieved document to a query.\nMore specifically, you will be provided with three pieces of information:\n- Query, which is the question we want to answer\n- Positive Document, which is a document that contains the correct answer to the query\n- Retrieved Document, which is the document we want to evaluate\nYour task is to predict \"Relevant\" if the Retrieved Document contains the information required to provide an answer to the Query, otherwise you should print \"Not Relevant\" \nYou can take advantage of the information in the Positive Document to identify the correct answer to the Query and then verify that the Retrieved Document contains that piece of information\n#####\nHere are your inputs:\nQuery: "),
   .hole (str "query_text"),
   .lit (str "\nPositive Document: "),
   .hole (str "positive_text"),
   .lit (str "\nRetrieved Document: "),
   .hole (str "retrieved_text"),
   .lit (str "\n#####\n\nTake a step back and reflect carefully on how best to solve your task\nYou should provide your answer in the form of a boolean value: \"Relevant\" or \"Not Relevant\"\nGood luck!")]

/-- One entry of the `POOL` helper structure. -/
structure TaskDef where
  prompt_inputs : List Str
  prompt_template : List Piece
  response_types : List Str
  metadata : List Str
  max_output_tokens : Nat
deriving DecidableEq

/-- `POOL["qa_pointwise"]`. -/
def qa_pointwise : TaskDef :=
  ⟨[str "query_text", str "retrieved_text"],
   QA_POINTWISE_RELEVANCE_PROMPT_TEMPLATE,
   [str "Relevant", str "Not Relevant"],
   [str "qid", str "retrieved_doc_id", str "human_judgment"],
   4⟩

/-- `POOL["qa_pairwise"]`. -/
def qa_pairwise : TaskDef :=
  ⟨[str "query_text", str "positive_text", str "retrieved_text"],
   QA_PAIRWISE_RELEVANCE_PROMPT_TEMPLATE,
   [str "Relevant", str "Not Relevant"],
   [str "qid", str "retrieved_doc_id", str "human_judgment"],
   4⟩

/-- `POOL["chain_of_thought"]`. -/
def chain_of_thought : TaskDef :=
  ⟨[str "query_text", str "retrieved_text"],
   CHAIN_OF_THOUGHT_PROMPT_TEMPLATE,
   [str "Answer: \"Relevant\"", str "Answer: \"Not Relevant\""],
   [str "qid", str "retrieved_doc_id", str "human_judgment"],
   250⟩

/-- The `POOL` mapping from task type to task definition (a Python dict,
modelled as an association list in insertion order). -/
def POOL : List (Str × TaskDef) :=
  [(str "qa_pointwise", qa_pointwise),
   (str "qa_pairwise", qa_pairwise),
   (str "chain_of_thought", chain_of_thought)]

/-- `necessary_keys` in `generate_prompts` and `generate_data`:
`POOL[task_type]["prompt_inputs"] + POOL[task_type]["metadata"]`. -/
def necessaryKeys (t : TaskDef) : List Str := t.prompt_inputs ++ t.metadata

/-- The `assert all(key in line for key in necessary_keys)` check. -/
def hasAllKeys (t : TaskDef) (r : Record) : Bool :=
  (necessaryKeys t).all (hasKey r)

/-- `prompt_inputs = {key: line[key] for key in POOL[task_type]["prompt_inputs"]}`. -/
def promptInputsEnv (t : TaskDef) (r : Record) : Record :=
  t.prompt_inputs.map (fun k => (k, lookupD r k))

/-- `prompt = prompt_template.format(**prompt_inputs)` for one record. -/
def formatRecord (t : TaskDef) (r : Record) : Str :=
  formatTemplate t.prompt_template (promptInputsEnv t r)

/-- `generate_prompts`: walk the records in order; for each record first run
the assertion, then yield its formatted prompt.  The result is the list of
prompts yielded before the generator terminates, paired with the record
that fired `AssertionError` (`none` when the whole list was processed). -/
def generate_prompts (t : TaskDef) : List Record → List Str × Option Record
  | [] => ([], none)
  | r :: rs =>
    if hasAllKeys t r then
      (formatRecord t r :: (generate_prompts t rs).1, (generate_prompts t rs).2)
    else ([], some r)

/-- `generate_data`: same assertion-guarded walk, yielding the records
themselves. -/
def generate_data (t : TaskDef) : List Record → List Record × Option Record
  | [] => ([], none)
  | r :: rs =>
    if hasAllKeys t r then (r :: (generate_data t rs).1, (generate_data t rs).2)
    else ([], some r)

example : hasAllKeys qa_pointwise [] = false := by decide
example : generate_prompts qa_pointwise [] = ([], none) := by decide
example : (generate_prompts qa_pointwise [[]]).2 = some [] := by decide

/-! ### Helper lemmas about the majority vote -/

/-- The position of the first occurrence of `x` in a list (the length of
the list when `x` does not occur). -/
def firstIdx (x : Str) : List Str → Nat
  | [] => 0
  | a :: as => if a = x then 0 else firstIdx x as + 1

theorem bestKey_cons_some (l : List Str) (k₀ : Str) (ks : List Str) :
    ∃ b, bestKey l (k₀ :: ks) = some b := by
  rw [bestKey]
  cases h2 : bestKey l ks with
  | none => exact ⟨k₀, rfl⟩
  | some b2 =>
    by_cases hc : l.count b2 > l.count k₀
    · exact ⟨b2, by simp only []; rw [if_pos hc]⟩
    · exact ⟨k₀, by simp only []; rw [if_neg hc]⟩

theorem bestKey_ne_nil (l ks : List Str) (h : ks ≠ []) :
    ∃ b, bestKey l ks = some b := by
  cases ks with
  | nil => exact absurd rfl h
  | cons k ks => exact bestKey_cons_some l k ks

theorem bestKey_mem (l : List Str) :
    ∀ ks b, bestKey l ks = some b → b ∈ ks := by
  intro ks
  induction ks with
  | nil => intro b h; simp [bestKey] at h
  | cons k ks ih =>
    intro b h
    rw [bestKey] at h
    cases h2 : bestKey l ks with
    | none =>
      simp only [h2] at h
      injection h with h3
      subst h3
      exact List.mem_cons_self k ks
    | some b2 =>
      simp only [h2] at h
      by_cases hc : l.count b2 > l.count k
      · rw [if_pos hc] at h
        injection h with h3
        subst h3
        exact List.mem_cons_of_mem k (ih _ h2)
      · rw [if_neg hc] at h
        injection h with h3
        subst h3
        exact List.mem_cons_self k ks

theorem bestKey_max (l : List Str) :
    ∀ ks b, bestKey l ks = some b → ∀ k ∈ ks, l.count k ≤ l.count b := by
  intro ks
  induction ks with
  | nil => intro b h; simp [bestKey] at h
  | cons k ks ih =>
    intro b h x hx
    rw [bestKey] at h
    cases h2 : bestKey l ks with
    | none =>
      simp only [h2] at h
      injection h with h3
      subst h3
      have hks : ks = [] := by
        cases ks with
        | nil => rfl
        | cons a as =>
          obtain ⟨b2, hb2⟩ := bestKey_cons_some l a as
          rw [hb2] at h2
          cases h2
      subst hks
      rcases List.mem_cons.mp hx with h4 | h4
      · subst h4; exact le_refl _
      · cases h4
    | some b2 =>
      simp only [h2] at h
      by_cases hc : l.count b2 > l.count k
      · rw [if_pos hc] at h
        injection h with h3
        subst h3
        rcases List.mem_cons.mp hx with h4 | h4
        · subst h4; exact le_of_lt hc
        · exact ih _ h2 _ h4
      · rw [if_neg hc] at h
        injection h with h3
        subst h3
        rcases List.mem_cons.mp hx with h4 | h4
        · subst h4; exact le_refl _
        · exact le_trans (ih _ h2 _ h4) (not_lt.mp hc)

theorem bestKey_earliest (l : List Str) :
    ∀ ks b, bestKey l ks = some b → ∀ k ∈ ks, l.count b ≤ l.count k →
      firstIdx b ks ≤ firstIdx k ks := by
  intro ks
  induction ks with
  | nil => intro b h; simp [bestKey] at h
  | cons k ks ih =>
    intro b h x hx hcnt
    rw [bestKey] at h
    cases h2 : bestKey l ks with
    | none =>
      simp only [h2] at h
      injection h with h3
      subst h3
      simp [firstIdx]
    | some b2 =>
      simp only [h2] at h
      by_cases hc : l.count b2 > l.count k
      · rw [if_pos hc] at h
        injection h with h3
        subst h3
        by_cases hxk : x = k
        · subst hxk
          exact absurd (lt_of_lt_of_le hc hcnt) (lt_irrefl _)
        · have hxks : x ∈ ks := by
            rcases List.mem_cons.mp hx with h4 | h4
            · exact absurd h4 hxk
            · exact h4
          have hrec := ih _ h2 _ hxks hcnt
          have hkx : ¬ k = x := fun h5 => hxk h5.symm
          by_cases hbk : k = b2
          · simp [firstIdx, hbk]
          · simp only [firstIdx]
            rw [if_neg hbk, if_neg hkx]
            omega
      · rw [if_neg hc] at h
        injection h with h3
        subst h3
        simp [firstIdx]

/-- When the clean outputs have winning key `b`, the yielded triple is fully
determined. -/
theorem processOne_of_bestKey (rts : List Str) (out : PipeOut) (b : Str)
    (hb : bestKey (cleanOutputs rts out) (cleanOutputs rts out) = some b) :
    processOne rts out =
      (llmOutputs out, b,
        round2 (mkRat ((cleanOutputs rts out).count b)
          (cleanOutputs rts out).length)) := by
  have hmc : mostCommon1 (cleanOutputs rts out) =
      some (b, (cleanOutputs rts out).count b) := by
    rw [mostCommon1, hb]
    rfl
  show voteResult (llmOutputs out) (cleanOutputs rts out) = _
  rw [voteResult, hmc]

/-- When every raw output parses to `"Unparsable"`, the sentinel triple is
yielded. -/
theorem processOne_sentinel (rts : List Str) (out : PipeOut)
    (h : ∀ o ∈ llmOutputs out, postprocessOutput rts o = unparsable) :
    processOne rts out = (llmOutputs out, unparsable, -1) := by
  have hclean : cleanOutputs rts out = [] := by
    rw [cleanOutputs]
    refine List.filter_eq_nil_iff.mpr ?_
    intro a ha
    obtain ⟨o, ho, rfl⟩ := List.mem_map.mp ha
    simp [h o ho]
  show voteResult (llmOutputs out) (cleanOutputs rts out) = _
  rw [hclean]
  rfl

/-! ### Helper lemmas about the regex search and the generators -/

theorem matchAt_some_lc (s : Str) :
    ∀ alts m, matchAt alts s = some m → ∃ t ∈ alts, lcEq m t = true := by
  intro alts
  induction alts with
  | nil => intro m h; simp [matchAt] at h
  | cons t ts ih =>
    intro m h
    rw [matchAt] at h
    by_cases hc : (t.length ≤ s.length && lcEq (s.take t.length) t) = true
    · rw [if_pos hc] at h
      injection h with h3
      subst h3
      exact ⟨t, List.mem_cons_self t ts, (Bool.and_eq_true _ _ |>.mp hc).2⟩
    · rw [if_neg hc] at h
      obtain ⟨t2, ht2, hlc⟩ := ih m h
      exact ⟨t2, List.mem_cons_of_mem t ht2, hlc⟩

theorem reSearch_some_lc (alts : List Str) :
    ∀ s m, reSearch alts s = some m → ∃ t ∈ alts, lcEq m t = true := by
  intro s
  induction s with
  | nil => intro m h; rw [reSearch] at h; exact matchAt_some_lc [] alts m h
  | cons c rest ih =>
    intro m h
    rw [reSearch] at h
    cases h2 : matchAt alts (c :: rest) with
    | some m2 =>
      simp only [h2] at h
      injection h with h3
      subst h3
      exact matchAt_some_lc (c :: rest) alts m2 h2
    | none =>
      simp only [h2] at h
      exact ih m h

theorem generate_prompts_all_ok (t : TaskDef) :
    ∀ data : List Record, (∀ x ∈ data, hasAllKeys t x = true) →
      generate_prompts t data = (data.map (formatRecord t), none) := by
  intro data
  induction data with
  | nil => intro _; rfl
  | cons r rs ih =>
    intro hall
    rw [generate_prompts, if_pos (hall r (List.mem_cons_self r rs)),
      ih (fun x hx => hall x (List.mem_cons_of_mem r hx))]
    rfl

theorem generate_prompts_error (t : TaskDef) (r : Record)
    (hr : hasAllKeys t r = false) :
    ∀ pre post : List Record, (∀ x ∈ pre, hasAllKeys t x = true) →
      generate_prompts t (pre ++ r :: post) = (pre.map (formatRecord t), some r) := by
  intro pre
  induction pre with
  | nil =>
    intro post _
    rw [List.nil_append, generate_prompts, if_neg (by simp [hr])]
    rfl
  | cons x xs ih =>
    intro post hall
    rw [List.cons_append, generate_prompts,
      if_pos (hall x (List.mem_cons_self x xs)),
      ih post (fun y hy => hall y (List.mem_cons_of_mem x hy))]
    rfl

theorem zip_getElem?_eq {α β : Type} (l1 : List α) (l2 : List β) (i : Nat) :
    (l1.zip l2)[i]? = (l1[i]?).bind fun a => (l2[i]?).map fun b => (a, b) := by
  induction l1 generalizing l2 i with
  | nil => simp
  | cons a l1 ih =>
    cases l2 with
    | nil => simp
    | cons b l2 =>
      cases i with
      | zero => simp
      | succ n => simpa using ih l2 n

/-! ### Claim theorems -/

/-- Claim C1: for every batch element whose generated outputs include at
least one output that parses to a label, the yielded mapped label occurs
among the parsed (non-`"Unparsable"`) outputs with maximal frequency, and
the yielded agreement equals the count of that label divided by the number
of parsed outputs, rounded to two decimal places. -/
theorem c1_plurality_label (rts : List Str) (out : PipeOut)
    (h : cleanOutputs rts out ≠ []) :
    (processOne rts out).2.1 ∈ cleanOutputs rts out ∧
    (∀ x ∈ cleanOutputs rts out,
      (cleanOutputs rts out).count x ≤
        (cleanOutputs rts out).count (processOne rts out).2.1) ∧
    (processOne rts out).2.2 =
      round2 ((((cleanOutputs rts out).count (processOne rts out).2.1 : ℚ)) /
        ((cleanOutputs rts out).length : ℚ)) := by
  obtain ⟨b, hb⟩ := bestKey_ne_nil _ _ h
  have hp := processOne_of_bestKey rts out b hb
  have h21 : (processOne rts out).2.1 = b := by rw [hp]
  have h22 : (processOne rts out).2.2 =
      round2 (mkRat ((cleanOutputs rts out).count b)
        (cleanOutputs rts out).length) := by rw [hp]
  rw [h21, h22]
  refine ⟨bestKey_mem _ _ _ hb, bestKey_max _ _ _ hb, ?_⟩
  rw [mkRat_eq_cast_div, Int.cast_natCast]

theorem c1_plurality_label_witness :
    cleanOutputs [] (PipeOut.multi [str "A"]) ≠ [] ∧
    ((processOne [] (PipeOut.multi [str "A"])).2.1 ∈
        cleanOutputs [] (PipeOut.multi [str "A"]) ∧
      (∀ x ∈ cleanOutputs [] (PipeOut.multi [str "A"]),
        (cleanOutputs [] (PipeOut.multi [str "A"])).count x ≤
          (cleanOutputs [] (PipeOut.multi [str "A"])).count
            (processOne [] (PipeOut.multi [str "A"])).2.1) ∧
      (processOne [] (PipeOut.multi [str "A"])).2.2 =
        round2 ((((cleanOutputs [] (PipeOut.multi [str "A"])).count
            (processOne [] (PipeOut.multi [str "A"])).2.1 : ℚ)) /
          ((cleanOutputs [] (PipeOut.multi [str "A"])).length : ℚ))) :=
  ⟨by decide, c1_plurality_label [] (PipeOut.multi [str "A"]) (by decide)⟩

/-- Claim C9: when labels tie for the maximal count among the parsed
(non-`"Unparsable"`) outputs, the yielded label is the one whose first
occurrence in the parsed output sequence is earliest: for every label `x`
of maximal count, the first index of the winner is at most that of `x`. -/
theorem c9_tie_earliest (rts : List Str) (out : PipeOut) (x : Str)
    (hx : x ∈ cleanOutputs rts out)
    (hmax : ∀ y ∈ cleanOutputs rts out,
      (cleanOutputs rts out).count y ≤ (cleanOutputs rts out).count x) :
    firstIdx (processOne rts out).2.1 (cleanOutputs rts out) ≤
      firstIdx x (cleanOutputs rts out) := by
  have hne : cleanOutputs rts out ≠ [] := List.ne_nil_of_mem hx
  obtain ⟨b, hb⟩ := bestKey_ne_nil _ _ hne
  rw [processOne_of_bestKey rts out b hb]
  exact bestKey_earliest _ _ _ hb x hx (hmax b (bestKey_mem _ _ _ hb))

theorem c9_tie_earliest_witness :
    (str "B") ∈ cleanOutputs [] (PipeOut.multi [str "A", str "B"]) ∧
    (∀ y ∈ cleanOutputs [] (PipeOut.multi [str "A", str "B"]),
      (cleanOutputs [] (PipeOut.multi [str "A", str "B"])).count y ≤
        (cleanOutputs [] (PipeOut.multi [str "A", str "B"])).count (str "B")) ∧
    firstIdx (processOne [] (PipeOut.multi [str "A", str "B"])).2.1
        (cleanOutputs [] (PipeOut.multi [str "A", str "B"])) ≤
      firstIdx (str "B") (cleanOutputs [] (PipeOut.multi [str "A", str "B"])) :=
  ⟨by decide, by decide,
    c9_tie_earliest [] (PipeOut.multi [str "A", str "B"]) (str "B")
      (by decide) (by decide)⟩

/-- Claim C4: a batch element all of whose generated outputs fail to parse
is yielded as the raw output list with mapped label `"Unparsable"` and
agreement `-1.0`. -/
theorem c4_unparsable_sentinel (rts : List Str) (out : PipeOut)
    (h : ∀ o ∈ llmOutputs out, postprocessOutput rts o = unparsable) :
    processOne rts out = (llmOutputs out, unparsable, -1) :=
  processOne_sentinel rts out h

theorem c4_unparsable_sentinel_witness :
    (∀ o ∈ llmOutputs (PipeOut.multi [str "huh", str "what"]),
      postprocessOutput [str "Relevant", str "Not Relevant"] o = unparsable) ∧
    processOne [str "Relevant", str "Not Relevant"]
        (PipeOut.multi [str "huh", str "what"]) =
      (llmOutputs (PipeOut.multi [str "huh", str "what"]), unparsable, -1) :=
  ⟨by decide,
    c4_unparsable_sentinel [str "Relevant", str "Not Relevant"]
      (PipeOut.multi [str "huh", str "what"]) (by decide)⟩

/-- Claim C6: when the parsed (non-`"Unparsable"`) outputs of a batch
element are exactly `["Relevant", "Relevant", "Not Relevant"]`, the yielded
mapped label is `"Relevant"` with agreement `0.67`. -/
theorem c6_example_vote (rts : List Str) (out : PipeOut)
    (h : cleanOutputs rts out =
      [str "Relevant", str "Relevant", str "Not Relevant"]) :
    (processOne rts out).2.1 = str "Relevant" ∧
    (processOne rts out).2.2 = (67 : ℚ) / 100 := by
  have h1 : processOne rts out =
      voteResult (llmOutputs out) (cleanOutputs rts out) := rfl
  rw [h1, h]
  constructor
  · rfl
  · have h2 : (voteResult (llmOutputs out)
        [str "Relevant", str "Relevant", str "Not Relevant"]).2.2 =
          mkRat 67 100 := rfl
    rw [h2, mkRat_eq_cast_div]
    norm_num

theorem c6_example_vote_witness :
    cleanOutputs [str "Relevant", str "Not Relevant"]
        (PipeOut.multi [str "Relevant", str "Relevant", str "Not Relevant"]) =
      [str "Relevant", str "Relevant", str "Not Relevant"] ∧
    (processOne [str "Relevant", str "Not Relevant"]
        (PipeOut.multi [str "Relevant", str "Relevant", str "Not Relevant"])).2.1 =
      str "Relevant" ∧
    (processOne [str "Relevant", str "Not Relevant"]
        (PipeOut.multi [str "Relevant", str "Relevant", str "Not Relevant"])).2.2 =
      (67 : ℚ) / 100 :=
  ⟨by decide,
    (c6_example_vote [str "Relevant", str "Not Relevant"]
      (PipeOut.multi [str "Relevant", str "Relevant", str "Not Relevant"])
      (by decide)).1,
    (c6_example_vote [str "Relevant", str "Not Relevant"]
      (PipeOut.multi [str "Relevant", str "Relevant", str "Not Relevant"])
      (by decide)).2⟩

/-- Claim C7: `_get_generation_args` returns the sampled decoding
configuration (`do_sample` true, the configured temperature,
`num_return_sequences = iterations`, `num_beams = 2 * iterations`) exactly
when the configured temperature is strictly positive, and otherwise the
greedy configuration with `do_sample` false and `num_return_sequences = 1`,
regardless of `iterations`. -/
theorem c7_generation_args (temperature : ℚ) (iterations : ℤ) :
    ((getGenerationArgs temperature iterations).do_sample = true ↔
      temperature > 0) ∧
    (temperature > 0 →
      getGenerationArgs temperature iterations =
        ⟨false, some temperature, true, iterations, some (2 * iterations)⟩) ∧
    (¬ temperature > 0 →
      getGenerationArgs temperature iterations = ⟨false, none, false, 1, none⟩) := by
  by_cases h : temperature > 0
  · rw [getGenerationArgs, if_pos h]
    exact ⟨by simp [h], fun _ => rfl, fun hc => absurd h hc⟩
  · rw [getGenerationArgs, if_neg h]
    exact ⟨by simp [h], fun hc => absurd hc h, fun _ => rfl⟩

theorem c7_generation_args_witness :
    (1 : ℚ) > 0 ∧
    getGenerationArgs 1 3 = ⟨false, some 1, true, 3, some (2 * 3)⟩ :=
  ⟨zero_lt_one, (c7_generation_args 1 3).2.1 zero_lt_one⟩

/-- Claim C2 fails as stated: with `response_types = ["Relevant", "Not
Relevant"]` the output `"relevant"` matches case-insensitively and
`group()` returns the text `"relevant"` from the subject string, which is
neither an element of `response_types` nor `"Unparsable"`. -/
theorem c2_closed_label_set_cex :
    ¬ (postprocessOutput [str "Relevant", str "Not Relevant"] (str "relevant") ∈
        [str "Relevant", str "Not Relevant"] ∨
      postprocessOutput [str "Relevant", str "Not Relevant"] (str "relevant") =
        unparsable) := by decide

/-- Claim C2, amended: for a non-empty `response_types` list the result of
`_postprocess_output` is either `"Unparsable"` or a string that is
case-insensitively equal to an element of `response_types` (the matched
text keeps the casing of the LLM output, so membership in the closed label
set only holds up to case). -/
theorem c2_closed_label_set (rts : List Str) (hne : rts ≠ []) (s : Str) :
    postprocessOutput rts s = unparsable ∨
    ∃ t ∈ rts, lcEq (postprocessOutput rts s) t = true := by
  obtain ⟨t0, ts0, rfl⟩ : ∃ t0 ts0, rts = t0 :: ts0 := by
    cases rts with
    | nil => exact absurd rfl hne
    | cons a b => exact ⟨a, b, rfl⟩
  have key : postprocessOutput (t0 :: ts0) s =
      match reSearch (t0 :: ts0) s with
      | some m => m
      | none => unparsable := rfl
  cases h2 : reSearch (t0 :: ts0) s with
  | none =>
    left
    rw [key, h2]
  | some m =>
    right
    have hpost : postprocessOutput (t0 :: ts0) s = m := by rw [key, h2]
    rw [hpost]
    exact reSearch_some_lc (t0 :: ts0) s m h2

theorem c2_closed_label_set_witness :
    ([str "Relevant"] : List Str) ≠ [] ∧
    (postprocessOutput [str "Relevant"] (str "zz") = unparsable ∨
      ∃ t ∈ [str "Relevant"],
        lcEq (postprocessOutput [str "Relevant"] (str "zz")) t = true) :=
  ⟨by decide, c2_closed_label_set [str "Relevant"] (by decide) (str "zz")⟩

/-- Claim C3 fails as stated in its second half: with `response_types =
["UNPARSABLE"]` and LLM output `"Unparsable"`, the regex finds a match and
the returned matched text is exactly the string `"Unparsable"`. -/
theorem c3_match_cex :
    reSearch [str "UNPARSABLE"] unparsable = some unparsable ∧
    postprocessOutput [str "UNPARSABLE"] unparsable = unparsable := by decide

/-- Claim C3, amended: for a non-empty `response_types` list, when the
regex finds no match `_postprocess_output` returns exactly `"Unparsable"`;
when it finds a match the returned value is the matched text, and that
text differs from `"Unparsable"` provided no response type is
case-insensitively equal to `"Unparsable"`. -/
theorem c3_unparsable_on_no_match (rts : List Str) (hne : rts ≠ []) (s : Str) :
    (reSearch rts s = none → postprocessOutput rts s = unparsable) ∧
    (∀ m, reSearch rts s = some m →
      postprocessOutput rts s = m ∧
      ((∀ t ∈ rts, lcEq unparsable t = false) → m ≠ unparsable)) := by
  obtain ⟨t0, ts0, rfl⟩ : ∃ t0 ts0, rts = t0 :: ts0 := by
    cases rts with
    | nil => exact absurd rfl hne
    | cons a b => exact ⟨a, b, rfl⟩
  have key : postprocessOutput (t0 :: ts0) s =
      match reSearch (t0 :: ts0) s with
      | some m => m
      | none => unparsable := rfl
  constructor
  · intro h2
    rw [key, h2]
  · intro m h2
    constructor
    · rw [key, h2]
    · intro hno hm
      subst hm
      obtain ⟨t, ht, hlc⟩ := reSearch_some_lc (t0 :: ts0) s unparsable h2
      rw [hno t ht] at hlc
      cases hlc

theorem c3_unparsable_on_no_match_witness :
    ([str "Relevant"] : List Str) ≠ [] ∧
    reSearch [str "Relevant"] (str "xy") = none ∧
    postprocessOutput [str "Relevant"] (str "xy") = unparsable :=
  ⟨by decide, by decide,
    (c3_unparsable_on_no_match [str "Relevant"] (by decide) (str "xy")).1
      (by decide)⟩

/-- Claim C5: for every task in `POOL`, `generate_prompts` fires the
assertion at the first record missing a necessary key (yielding only the
prompts of the preceding records, and no prompt for the failing record),
and when every record has all necessary keys it yields exactly one
formatted prompt per record, in record order. -/
theorem c5_prompt_assertion (name : Str) (t : TaskDef)
    (_hmem : (name, t) ∈ POOL) (pre post : List Record) (r : Record)
    (hpre : ∀ x ∈ pre, hasAllKeys t x = true)
    (hr : hasAllKeys t r = false) :
    generate_prompts t (pre ++ r :: post) = (pre.map (formatRecord t), some r) ∧
    ∀ data : List Record, (∀ x ∈ data, hasAllKeys t x = true) →
      generate_prompts t data = (data.map (formatRecord t), none) :=
  ⟨generate_prompts_error t r hr pre post hpre, generate_prompts_all_ok t⟩

theorem c5_prompt_assertion_witness :
    (str "qa_pointwise", qa_pointwise) ∈ POOL ∧
    hasAllKeys qa_pointwise [] = false ∧
    generate_prompts qa_pointwise [[]] = ([], some []) :=
  ⟨by rw [POOL]; exact List.mem_cons_self _ _, by decide,
    (c5_prompt_assertion (str "qa_pointwise") qa_pointwise
      (by rw [POOL]; exact List.mem_cons_self _ _) [] [] []
      (by simp) (by decide)).1⟩

/-- Claim C8: with the pipeline modelled as an oracle returning one output
(single generation or list of generations) per prompt, `__call__` yields
exactly one `(raw outputs, mapped label, agreement)` triple per prompt, in
prompt order, so zipping the results with `generate_data` over the same
records pairs the `i`-th judgment with the `i`-th record. -/
theorem c8_one_judgment_per_prompt (rts : List Str) (outs : List PipeOut) :
    (callEval rts outs).length = outs.length ∧
    (∀ i : Nat, (callEval rts outs)[i]? = (outs[i]?).map (processOne rts)) ∧
    (∀ t : TaskDef, ∀ data : List Record,
      (∀ r ∈ data, hasAllKeys t r = true) → (generate_data t data).1 = data) ∧
    (∀ records : List Record, ∀ i : Nat,
      ((callEval rts outs).zip records)[i]? =
        ((outs[i]?).map (processOne rts)).bind fun j =>
          (records[i]?).map fun r => (j, r)) := by
  refine ⟨List.length_map outs (processOne rts), ?_, ?_, ?_⟩
  · intro i
    exact List.getElem?_map (processOne rts) outs i
  · intro t data
    induction data with
    | nil => intro _; rfl
    | cons r rs ih =>
      intro hall
      rw [generate_data, if_pos (hall r (List.mem_cons_self r rs)),
        ih (fun x hx => hall x (List.mem_cons_of_mem r hx))]
  · intro records i
    rw [callEval, zip_getElem?_eq, List.getElem?_map (processOne rts) outs i]

theorem c8_one_judgment_per_prompt_witness :
    (generate_data qa_pointwise []).1 = [] :=
  (c8_one_judgment_per_prompt [] []).2.2.1 qa_pointwise [] (by simp)

/-- Claim C10 fails in its second half: with an empty `response_types`
list, `_postprocess_output` is the identity, so an LLM output that is
literally the string `"Unparsable"` is still mapped to `"Unparsable"` and
a batch element whose outputs are all literally `"Unparsable"` does yield
the `("Unparsable", -1.0)` sentinel. -/
theorem c10_empty_types_cex :
    regexStr [] = none ∧
    postprocessOutput [] unparsable = unparsable ∧
    processOne [] (PipeOut.single unparsable) =
      ([unparsable], unparsable, -1) := by
  refine ⟨rfl, rfl, ?_⟩
  decide

/-- Claim C10, amended: with an empty `response_types` list `regex_str` is
`None` and `_postprocess_output` returns every LLM output unchanged; a
batch element is mapped to the `"Unparsable"` label exactly when every raw
output is literally the string `"Unparsable"` (majority voting otherwise
runs over the raw output strings other than literal `"Unparsable"`). -/
theorem c10_empty_types_identity :
    (∀ s : Str, postprocessOutput [] s = s) ∧
    ∀ out : PipeOut,
      ((processOne [] out).2.1 = unparsable ↔
        ∀ o ∈ llmOutputs out, o = unparsable) := by
  constructor
  · intro s; rfl
  · intro out
    constructor
    · intro h
      by_contra hnot
      push_neg at hnot
      obtain ⟨o, ho, hne⟩ := hnot
      have hclean : o ∈ cleanOutputs [] out := by
        rw [cleanOutputs]
        refine List.mem_filter.mpr ⟨List.mem_map.mpr ⟨o, ho, rfl⟩, by simp [hne]⟩
      obtain ⟨b, hb⟩ := bestKey_ne_nil _ _ (List.ne_nil_of_mem hclean)
      have hb3 : b = unparsable := by
        rw [processOne_of_bestKey [] out b hb] at h
        exact h
      have hbmem := bestKey_mem _ _ _ hb
      rw [cleanOutputs] at hbmem
      have hb2 := (List.mem_filter.mp hbmem).2
      rw [hb3] at hb2
      simp at hb2
    · intro hall
      have h4 : processOne [] out = (llmOutputs out, unparsable, -1) :=
        processOne_sentinel [] out (fun o ho => by
          have hid : postprocessOutput [] o = o := rfl
          rw [hid]
          exact hall o ho)
      rw [h4]

theorem c10_empty_types_identity_witness :
    ¬ (processOne [] (PipeOut.multi [str "A", unparsable])).2.1 = unparsable :=
  fun h =>
    absurd
      ((c10_empty_types_identity.2 (PipeOut.multi [str "A", unparsable])).mp h
        (str "A") (by decide))
      (by decide)
